import Mathlib

/-!
Verification of the BackendRecord reconciler of the lb-controlling-framework
(`pkg/lbcfcontroller`, backend controller) and its driver webhook client
(`pkg/lbcfcontroller/util/webhook_helper.go`).

The Go code is shallowly embedded: external effects (store lookups, the HTTP
webhook transport, status/update persistence) are inputs in a `ReconcileEnv`,
the process-wide in-flight-delete registry is an association list threaded
through the reconcile, and each reconcile returns the verdict together with
the stored record after the tick, the new registry, the emitted events and a
trace of which generators and webhook operations ran.

Helper functions of the `util` and `webhooks` packages whose source is not
part of this development (`CalculateRetryInterval`, `GetDuration`,
`HasFinalizer`, `RemoveFinalizer`, `AddBackendCondition`, the status string
constants, the finalizer sentinel) are modelled from the specification and
carry a doc comment saying so.
-/

namespace LBCF

/-! ## Result model (util.SyncResult, §4.1 of the spec) -/

/-- The five-valued reconciliation verdict returned to the work queue. -/
inductive SyncResult where
  | succ : SyncResult
  | error (err : String) : SyncResult
  | fail (delay : Nat) : SyncResult
  | async (delay : Nat) : SyncResult
  | periodic (period : Nat) : SyncResult
deriving Repr, DecidableEq

/-- util.SuccResult() -/
def SuccResult : SyncResult := .succ

/-- util.ErrorResult(err) -/
def ErrorResult (err : String) : SyncResult := .error err

/-- util.FailResult(delay) -/
def FailResult (delay : Nat) : SyncResult := .fail delay

/-- util.AsyncResult(delay) -/
def AsyncResult (delay : Nat) : SyncResult := .async delay

/-- util.PeriodicResult(period) -/
def PeriodicResult (period : Nat) : SyncResult := .periodic period

/-- Modelled from the spec (util.CalculateRetryInterval is not under src/):
"given a driver-supplied MinRetryDelaySeconds (may be zero or absent), return
max(MinRetryDelaySeconds, FLOOR) where FLOOR is a small constant default
(e.g. 10 s)". Durations are in seconds. -/
def CalculateRetryInterval (minRetryDelaySeconds : Nat) : Nat :=
  max minRetryDelaySeconds 10

/-- Modelled from the spec (util.DefaultEnsurePeriod is not under src/):
"DEFAULT_ENSURE_PERIOD is a constant (e.g. 1 minute)". In seconds. -/
def DefaultEnsurePeriod : Nat := 60

/-- Modelled from the spec (util.GetDuration is not under src/): the ensure
periodic cadence is "max(EnsurePolicy.MinPeriod, DEFAULT_ENSURE_PERIOD)";
`MinPeriod` is optional (`none` counts as zero). -/
def GetDuration (minPeriod : Option Nat) (defaultValue : Nat) : Nat :=
  max (minPeriod.getD 0) defaultValue

/-! ## Webhook status strings (webhooks package, values from spec §6.2) -/

/-- webhooks.StatusSucc -/
def StatusSucc : String := "Succ"

/-- webhooks.StatusFail -/
def StatusFail : String := "Fail"

/-- webhooks.StatusRunning -/
def StatusRunning : String := "Running"

/-- Modelled from the spec (lbcfapi.FinalizerDeregisterBackend is not under
src/): the sentinel finalizer string, called `deregister-backend`. -/
def FinalizerDeregisterBackend : String := "deregister-backend"

/-- Modelled from the spec (util.HasFinalizer is not under src/): `Finalizers`
is an ordered set of strings that "contains the sentinel"; membership test. -/
def HasFinalizer (finalizers : List String) (f : String) : Bool :=
  finalizers.contains f

/-- Modelled from the spec (util.RemoveFinalizer is not under src/): "strip
the `deregister-backend` sentinel from `Finalizers`". -/
def RemoveFinalizer (finalizers : List String) (f : String) : List String :=
  finalizers.filter (fun x => x ≠ f)

/-! ## Data model (§3 of the spec, lbcfapi types) -/

/-- Spec.PodBackendInfo {Name, Port} -/
structure PodBackendInfo where
  name : String
  port : Nat
deriving Repr, DecidableEq

/-- Spec.ServiceBackendInfo {Name, Port, NodeName} -/
structure ServiceBackendInfo where
  name : String
  port : Nat
  nodeName : String
deriving Repr, DecidableEq

/-- EnsurePolicy.Policy ∈ {IfNotReady, Always} -/
inductive EnsurePolicyType where
  | ifNotReady : EnsurePolicyType
  | always : EnsurePolicyType
deriving Repr, DecidableEq

/-- Spec.EnsurePolicy {Policy, MinPeriod} (MinPeriod optional, seconds) -/
structure EnsurePolicyConfig where
  policy : EnsurePolicyType
  minPeriod : Option Nat
deriving Repr, DecidableEq

/-- lbcfapi.BackendRecordCondition: the core maintains the condition
`BackendRegistered` with status, transition time, reason and message. -/
structure BackendRecordCondition where
  condType : String
  status : String
  lastTransitionTime : Nat
  reason : String
  message : String
deriving Repr, DecidableEq

/-- lbcfapi.BackendRegistered condition type. -/
def BackendRegistered : String := "BackendRegistered"

/-- lbcfapi.ConditionTrue -/
def ConditionTrue : String := "True"

/-- lbcfapi.ConditionFalse -/
def ConditionFalse : String := "False"

/-- lbcfapi.ReasonOperationFailed.String() -/
def ReasonOperationFailed : String := "OperationFailed"

/-- BackendRecord.Status: address, injected-info blob (a string map, modelled
as an association list) and the condition set. -/
structure BackendRecordStatus where
  backendAddr : String
  injectedInfo : List (String × String)
  conditions : List BackendRecordCondition
deriving Repr, DecidableEq

/-- BackendRecord.Spec fields the core reads. `LBInfo` is an opaque
driver-scoped identity: the registry keys format it as a string, so it is
modelled by its formatted representation. -/
structure BackendRecordSpec where
  lbDriver : String
  lbInfo : String
  lbAttributes : String
  parameters : String
  podBackendInfo : Option PodBackendInfo
  serviceBackendInfo : Option ServiceBackendInfo
  staticAddr : Option String
  ensurePolicy : Option EnsurePolicyConfig
deriving Repr, DecidableEq

/-- The reconciled entity. `deletionTimestamp` present means "being
deleted". -/
structure BackendRecord where
  namespc : String
  name : String
  uid : String
  deletionTimestamp : Option Nat
  finalizers : List String
  spec : BackendRecordSpec
  status : BackendRecordStatus
deriving Repr, DecidableEq

/-- LoadBalancerDriver.Spec.Webhooks[] entry: per-hook timeout. -/
structure DriverWebhookConfig where
  name : String
  timeout : Nat
deriving Repr, DecidableEq

/-- LoadBalancerDriver (read-only): Spec.Url and per-hook timeouts. -/
structure LoadBalancerDriver where
  name : String
  url : String
  webhooks : List DriverWebhookConfig
deriving Repr, DecidableEq

/-! ## Webhook response envelopes (webhooks package) -/

/-- webhooks.GenerateBackendAddrResponse. -/
structure GenerateBackendAddrResponse where
  status : String
  msg : String
  backendAddr : String
  minRetryDelayInSeconds : Nat
deriving Repr, DecidableEq

/-- webhooks.BackendOperationResponse (ensure / deregister). -/
structure BackendOperationResponse where
  status : String
  msg : String
  injectedInfo : List (String × String)
  minRetryDelayInSeconds : Nat
deriving Repr, DecidableEq

/-! ## Webhook client (pkg/lbcfcontroller/util/webhook_helper.go) -/

/-- A parsed URL as far as `callWebhook` manipulates it: scheme, host and
path component (net/url.URL). -/
structure URL where
  scheme : String
  host : String
  path : String
deriving Repr, DecidableEq

/-- webhook_helper.go lines 135-141: `u.Path = path.Join(webHookName)`. The
path of the parsed driver URL is overwritten with `path.Join` of the single
element `webHookName`; for a nonempty already-clean element (all hook names
used by the core are), Go's `path.Join` of one element is that element. -/
def resolveWebhookURL (u : URL) (webHookName : String) : URL :=
  { u with path := webHookName }

/-- Go net/url.URL.String() as far as scheme/host/path go: a nonempty path
that does not begin with a slash character gets one inserted after the
host. -/
def urlString (u : URL) : String :=
  u.scheme ++ "://" ++ u.host ++
    (if u.path ≠ "" ∧ u.path.data.head? ≠ some '/' then "/" ++ u.path
     else u.path)

/-- Go path.Join of two elements (no interior cleaning needed for the inputs
considered here): empty elements are dropped, the rest joined by "/". -/
def pathJoin (a b : String) : String :=
  if a = "" then b else if b = "" then a else a ++ "/" ++ b

/-- The spec's words for URL resolution ("Resolve URL as `driver.Spec.Url`
with path suffix equal to the webhook name", preserving any base path of the
driver URL), for comparison against `resolveWebhookURL`. -/
def resolveWebhookURLSpec (u : URL) (webHookName : String) : URL :=
  { u with path := pathJoin u.path webHookName }

/-- The observable outcome of the HTTP POST in `callWebhook`: either a
transport error from `request.EndBytes()`, or a response with a status code
and a flag saying whether the body JSON-decodes into the envelope. -/
inductive TransportOutcome where
  | transportError (msg : String) : TransportOutcome
  | response (statusCode : Nat) (decodeOk : Bool) : TransportOutcome
deriving Repr, DecidableEq

/-- webhook_helper.go lines 134-170, `callWebhook`: error on unparsable
driver URL; otherwise the request is posted to the resolved URL and the call
errors on transport failure, on a status code other than http.StatusOK
(200), or when the body fails to decode; otherwise the decoded response is
in `rsp` and nil is returned. `parsedUrl` is the result of
`url.Parse(driver.Spec.Url)`. Returned alongside the error outcome is the
URL the POST was sent to (`none` when no request was made). -/
def callWebhook (parsedUrl : Option URL) (webHookName : String)
    (outcome : TransportOutcome) : Option URL × Except String Unit :=
  match parsedUrl with
  | none => (none, .error "invalid url")
  | some u =>
    let target := resolveWebhookURL u webHookName
    match outcome with
    | .transportError m => (some target, .error ("webhook err: " ++ m))
    | .response statusCode decodeOk =>
      (some target,
        if statusCode ≠ 200 then
          .error ("http status code: " ++ toString statusCode)
        else if ¬ decodeOk then
          .error "decode webhook response err"
        else .ok ())

/-- Whether an HTTP status code is outside the 2xx class (the spec's claimed
error criterion). -/
def non2xx (statusCode : Nat) : Bool :=
  statusCode < 200 || 300 ≤ statusCode

/-! ## In-flight-delete registry (the backendController's inProgressDeleting
sync.Map), modelled as an association list key → record name. -/

/-- The process-wide registry state. -/
abbrev Registry := List (String × String)

/-- sync.Map.Store: overwrite any binding of the key. -/
def regStore (reg : Registry) (k v : String) : Registry :=
  (k, v) :: reg.filter (fun p => p.1 ≠ k)

/-- sync.Map.Delete. -/
def regDelete (reg : Registry) (k : String) : Registry :=
  reg.filter (fun p => p.1 ≠ k)

/-- sync.Map.Load. -/
def regLoad (reg : Registry) (k : String) : Option String :=
  (reg.find? (fun p => p.1 = k)).map (fun p => p.2)

/-- The registry key for a record, lines 265/270/275:
`fmt.Sprintf("%s|%s", backend.Spec.LBInfo, backend.Status.BackendAddr)`. -/
def deletingKey (backend : BackendRecord) : String :=
  backend.spec.lbInfo ++ "|" ++ backend.status.backendAddr

/-- storeDeletingBackend, lines 264-267. -/
def storeDeletingBackend (reg : Registry) (backend : BackendRecord) : Registry :=
  regStore reg (deletingKey backend) backend.name

/-- removeDeletingRecord, lines 269-272. -/
def removeDeletingRecord (reg : Registry) (backend : BackendRecord) : Registry :=
  regDelete reg (deletingKey backend)

/-- sameAddrDeleting, lines 274-281: the stored record name when an entry
with this record's key is present. -/
def sameAddrDeleting (reg : Registry) (backend : BackendRecord) : Option String :=
  regLoad reg (deletingKey backend)

/-! ## Reconcile environment and observable output -/

/-- Result of loading the record from the lister (lines 70-75):
`errors.IsNotFound`, some other lookup error, or the record snapshot. -/
inductive GetRecordResult where
  | notFound : GetRecordResult
  | getError (err : String) : GetRecordResult
  | found (backend : BackendRecord) : GetRecordResult
deriving Repr, DecidableEq

/-- One external-world valuation for a single reconcile tick: the outcome of
each store lookup, of each webhook invocation the tick could make, whether
the two kinds of persistence succeed, and the wall clock used for condition
transition timestamps. A webhook invocation outcome is `Except`: `.error`
covers the transport/decode failures `callWebhook` surfaces as a non-nil
error, `.ok` is the decoded envelope. -/
structure ReconcileEnv where
  keyOk : Bool
  getRecord : GetRecordResult
  driver : Except String LoadBalancerDriver
  podLookup : Except String Unit
  nodeLookup : Except String Unit
  svcLookup : Except String Unit
  genRsp : Except String GenerateBackendAddrResponse
  ensureRsp : Except String BackendOperationResponse
  deregRsp : Except String BackendOperationResponse
  updateStatusOk : Bool
  updateOk : Bool
  now : Nat
deriving Repr

/-- Trace marker: which generator adapters ran and which webhook operations
were actually invoked during the tick. -/
inductive CallTrace where
  | podGen : CallTrace
  | svcGen : CallTrace
  | staticGen : CallTrace
  | callGenerate : CallTrace
  | callEnsure : CallTrace
  | callDereg : CallTrace
deriving Repr, DecidableEq

/-- Whether a trace marker records entry into one of the three generator
adapters. -/
def CallTrace.isGenerator : CallTrace → Bool
  | .podGen => true
  | .svcGen => true
  | .staticGen => true
  | _ => false

/-- Observable output of one path function: the verdict, the stored record
after the tick (reflecting any Update/UpdateStatus that succeeded), the
registry, the emitted events as (reason, detail) pairs, and the call
trace. -/
structure PathOut where
  result : SyncResult
  stored : BackendRecord
  registry : Registry
  events : List (String × String)
  trace : List CallTrace
deriving Repr, DecidableEq

/-- Observable output of a whole reconcile; `stored` is `none` when no
record was found for the key. -/
structure SyncOut where
  result : SyncResult
  stored : Option BackendRecord
  registry : Registry
  events : List (String × String)
  trace : List CallTrace
deriving Repr, DecidableEq

/-! ## Condition upsert -/

/-- Modelled from the spec (util.AddBackendCondition is not under src/):
"Condition upsert rule: if an existing condition has the same `Type`,
preserve its `LastTransitionTime` when `Status` is unchanged; otherwise
replace all fields"; a condition of a new type is appended. -/
def AddBackendCondition (st : BackendRecordStatus)
    (c : BackendRecordCondition) : BackendRecordStatus :=
  if st.conditions.any (fun x => x.condType = c.condType) then
    { st with conditions := st.conditions.map (fun x =>
        if x.condType = c.condType then
          if x.status = c.status then
            { c with lastTransitionTime := x.lastTransitionTime }
          else c
        else x) }
  else
    { st with conditions := st.conditions ++ [c] }

/-! ## The backend controller (src/unnamed/part_000) -/

/-- removeFinalizer, lines 252-262: remove the record from the
in-flight-delete registry, deep-copy, strip the sentinel from Finalizers,
persist via full Update; ErrorResult when the Update fails, SuccResult
otherwise. -/
def removeFinalizer (env : ReconcileEnv) (reg : Registry)
    (backend : BackendRecord) : PathOut :=
  let reg1 := removeDeletingRecord reg backend
  let cpy := { backend with
    finalizers := RemoveFinalizer backend.finalizers FinalizerDeregisterBackend }
  if env.updateOk then
    { result := SuccResult, stored := cpy, registry := reg1,
      events := [], trace := [] }
  else
    { result := ErrorResult "update failed", stored := backend,
      registry := reg1, events := [], trace := [] }

/-- deregisterBackend, lines 211-250: store the record in the registry
first; when `Status.BackendAddr` is empty go straight to finalizer removal;
otherwise resolve the driver and call the deregister webhook, removing the
finalizer only on `Succ`. -/
def deregisterBackend (env : ReconcileEnv) (reg : Registry)
    (backend : BackendRecord) : PathOut :=
  let reg1 := storeDeletingBackend reg backend
  if backend.status.backendAddr = "" then
    removeFinalizer env reg1 backend
  else
    match env.driver with
    | .error e =>
      { result := ErrorResult ("retrieve driver " ++ backend.spec.lbDriver ++
          " for BackendRecord " ++ backend.name ++ " failed: " ++ e),
        stored := backend, registry := reg1, events := [], trace := [] }
    | .ok _ =>
      match env.deregRsp with
      | .error e =>
        { result := ErrorResult e, stored := backend, registry := reg1,
          events := [], trace := [.callDereg] }
      | .ok rsp =>
        if rsp.status = StatusSucc then
          let out := removeFinalizer env reg1 backend
          { out with trace := .callDereg :: out.trace }
        else if rsp.status = StatusFail then
          { result := FailResult (CalculateRetryInterval rsp.minRetryDelayInSeconds),
            stored := backend, registry := reg1,
            events := [("FailedDeregister", rsp.msg)], trace := [.callDereg] }
        else if rsp.status = StatusRunning then
          { result := AsyncResult (CalculateRetryInterval rsp.minRetryDelayInSeconds),
            stored := backend, registry := reg1,
            events := [("RunningDeregister", rsp.msg)], trace := [.callDereg] }
        else
          { result := ErrorResult ("unknown status " ++ rsp.status),
            stored := backend, registry := reg1,
            events := [("InvalidDeregister", rsp.msg)], trace := [.callDereg] }

/-- generatePodAddr, lines 283-301: pod lookup, then the generate webhook;
a lookup failure aborts before any webhook call. -/
def generatePodAddr (env : ReconcileEnv) :
    List CallTrace × Except String GenerateBackendAddrResponse :=
  match env.podLookup with
  | .error e => ([.podGen], .error e)
  | .ok _ => ([.podGen, .callGenerate], env.genRsp)

/-- generateServiceAddr, lines 303-327: node lookup, service lookup, then
the generate webhook; a lookup failure aborts before any webhook call. -/
def generateServiceAddr (env : ReconcileEnv) :
    List CallTrace × Except String GenerateBackendAddrResponse :=
  match env.nodeLookup with
  | .error e => ([.svcGen], .error e)
  | .ok _ =>
    match env.svcLookup with
    | .error e => ([.svcGen], .error e)
    | .ok _ => ([.svcGen, .callGenerate], env.genRsp)

/-- generateStaticAddr, lines 329-334: a locally synthesised `Succ` response
whose BackendAddr is the literal from the spec; never an error, no webhook
call. The dispatch guarantees `staticAddr` is present. -/
def generateStaticAddr (backend : BackendRecord) :
    List CallTrace × Except String GenerateBackendAddrResponse :=
  ([.staticGen],
   .ok { status := StatusSucc, msg := "",
         backendAddr := backend.spec.staticAddr.getD "",
         minRetryDelayInSeconds := 0 })

/-- The backend-source dispatch of generateBackendAddr, lines 96-111: pod
info takes precedence, then service info, then static address; none set is
an "unknown backend type" error. -/
def genDispatch (env : ReconcileEnv) (backend : BackendRecord) :
    List CallTrace × Except String GenerateBackendAddrResponse :=
  if backend.spec.podBackendInfo.isSome then
    generatePodAddr env
  else if backend.spec.serviceBackendInfo.isSome then
    generateServiceAddr env
  else if backend.spec.staticAddr.isSome then
    generateStaticAddr backend
  else
    ([], .error "unknown backend type")

/-- generateBackendAddr, lines 90-136: resolve the driver, dispatch on the
backend-source kind, then interpret the response envelope; on `Succ` the
deep copy gets `Status.BackendAddr = rsp.BackendAddr` and a status update is
attempted. -/
def generateBackendAddr (env : ReconcileEnv) (reg : Registry)
    (backend : BackendRecord) : PathOut :=
  match env.driver with
  | .error e =>
    { result := ErrorResult ("retrieve driver " ++ backend.spec.lbDriver ++
        " for BackendRecord " ++ backend.name ++ " failed: " ++ e),
      stored := backend, registry := reg, events := [], trace := [] }
  | .ok _ =>
    let (tr, rspE) := genDispatch env backend
    match rspE with
    | .error e =>
      { result := ErrorResult e, stored := backend, registry := reg,
        events := [], trace := tr }
    | .ok rsp =>
      if rsp.status = StatusSucc then
        let cpy := { backend with
          status := { backend.status with backendAddr := rsp.backendAddr } }
        if env.updateStatusOk then
          { result := SuccResult, stored := cpy, registry := reg,
            events := [("SuccGenerateAddr", rsp.backendAddr)], trace := tr }
        else
          { result := ErrorResult "update status failed", stored := backend,
            registry := reg,
            events := [("FailedGenerateAddr", "update status failed")],
            trace := tr }
      else if rsp.status = StatusFail then
        { result := FailResult (CalculateRetryInterval rsp.minRetryDelayInSeconds),
          stored := backend, registry := reg,
          events := [("FailedGenerateAddr", rsp.msg)], trace := tr }
      else if rsp.status = StatusRunning then
        { result := AsyncResult (CalculateRetryInterval rsp.minRetryDelayInSeconds),
          stored := backend, registry := reg,
          events := [("RunningGenerateAddr", rsp.msg)], trace := tr }
      else
        { result := ErrorResult ("unknown status " ++ rsp.status),
          stored := backend, registry := reg,
          events := [("InvalidGenerateAddr", rsp.msg)], trace := tr }

/-- ensureBackend, lines 138-209: the same-address-deleting guard first;
then driver resolution, the ensure webhook, and the response dispatch. On
`Succ` the deep copy takes the response's InjectedInfo only when non-empty,
gets the BackendRegistered=True condition upserted, and a status update is
attempted; a `Periodic` verdict is produced only under
`EnsurePolicy.Policy == Always`. On `Fail` the BackendRegistered=False
condition is persisted. -/
def ensureBackend (env : ReconcileEnv) (reg : Registry)
    (backend : BackendRecord) : PathOut :=
  match sameAddrDeleting reg backend with
  | some nm =>
    { result := AsyncResult (CalculateRetryInterval 0), stored := backend,
      registry := reg, events := [("DelayedEnsureBackend", nm)], trace := [] }
  | none =>
    match env.driver with
    | .error e =>
      { result := ErrorResult ("retrieve driver " ++ backend.spec.lbDriver ++
          " for BackendRecord " ++ backend.name ++ " failed: " ++ e),
        stored := backend, registry := reg, events := [], trace := [] }
    | .ok _ =>
      match env.ensureRsp with
      | .error e =>
        { result := ErrorResult e, stored := backend, registry := reg,
          events := [], trace := [.callEnsure] }
      | .ok rsp =>
        if rsp.status = StatusSucc then
          let st1 :=
            if rsp.injectedInfo.length > 0 then
              { backend.status with injectedInfo := rsp.injectedInfo }
            else backend.status
          let st2 := AddBackendCondition st1
            { condType := BackendRegistered, status := ConditionTrue,
              lastTransitionTime := env.now, reason := "", message := rsp.msg }
          let cpy := { backend with status := st2 }
          if env.updateStatusOk then
            match backend.spec.ensurePolicy with
            | some ep =>
              if ep.policy = .always then
                { result := PeriodicResult (GetDuration ep.minPeriod DefaultEnsurePeriod),
                  stored := cpy, registry := reg,
                  events := [("SuccEnsureBackend", "")], trace := [.callEnsure] }
              else
                { result := SuccResult, stored := cpy, registry := reg,
                  events := [("SuccEnsureBackend", "")], trace := [.callEnsure] }
            | none =>
              { result := SuccResult, stored := cpy, registry := reg,
                events := [("SuccEnsureBackend", "")], trace := [.callEnsure] }
          else
            { result := ErrorResult "update status failed", stored := backend,
              registry := reg,
              events := [("FailedEnsureBackend", "update status failed")],
              trace := [.callEnsure] }
        else if rsp.status = StatusFail then
          let st2 := AddBackendCondition backend.status
            { condType := BackendRegistered, status := ConditionFalse,
              lastTransitionTime := env.now, reason := ReasonOperationFailed,
              message := rsp.msg }
          let cpy := { backend with status := st2 }
          if env.updateStatusOk then
            { result := FailResult (CalculateRetryInterval rsp.minRetryDelayInSeconds),
              stored := cpy, registry := reg,
              events := [("FailedEnsureBackend", rsp.msg)], trace := [.callEnsure] }
          else
            { result := ErrorResult "update status failed", stored := backend,
              registry := reg,
              events := [("FailedEnsureBackend", "update status failed")],
              trace := [.callEnsure] }
        else if rsp.status = StatusRunning then
          { result := AsyncResult (CalculateRetryInterval rsp.minRetryDelayInSeconds),
            stored := backend, registry := reg,
            events := [("RunningEnsureBackend", rsp.msg)], trace := [.callEnsure] }
        else
          { result := ErrorResult ("unknown status " ++ rsp.status),
            stored := backend, registry := reg,
            events := [("InvalidEnsureBackend", rsp.msg)], trace := [.callEnsure] }

/-- Lift a path output into a whole-reconcile output. -/
def liftPath (out : PathOut) : SyncOut :=
  { result := out.result, stored := some out.stored, registry := out.registry,
    events := out.events, trace := out.trace }

/-- syncBackendRecord, lines 65-88: key split, record load, then the
four-way dispatch on deletion timestamp, finalizer presence and address
presence. -/
def syncBackendRecord (env : ReconcileEnv) (reg : Registry) : SyncOut :=
  if ¬ env.keyOk then
    { result := ErrorResult "invalid key", stored := none, registry := reg,
      events := [], trace := [] }
  else
    match env.getRecord with
    | .notFound =>
      { result := SuccResult, stored := none, registry := reg,
        events := [], trace := [] }
    | .getError e =>
      { result := ErrorResult e, stored := none, registry := reg,
        events := [], trace := [] }
    | .found backend =>
      if backend.deletionTimestamp.isSome then
        if ¬ HasFinalizer backend.finalizers FinalizerDeregisterBackend then
          { result := SuccResult, stored := some backend, registry := reg,
            events := [], trace := [] }
        else
          liftPath (deregisterBackend env reg backend)
      else if backend.status.backendAddr = "" then
        liftPath (generateBackendAddr env reg backend)
      else
        liftPath (ensureBackend env reg backend)

/-! ## Concrete fixtures used to evaluate the development on closed inputs -/

/-- Whether an `Except` holds an error. -/
def exceptIsError {ε α : Type} : Except ε α → Bool
  | .error _ => true
  | .ok _ => false

/-- A sample driver. -/
def wDriver : LoadBalancerDriver :=
  { name := "driver-a", url := "https://driver.example", webhooks := [] }

/-- A sample spec with a static backend source. -/
def wSpecStatic : BackendRecordSpec :=
  { lbDriver := "driver-a", lbInfo := "lb-1", lbAttributes := "",
    parameters := "", podBackendInfo := none, serviceBackendInfo := none,
    staticAddr := some "10.0.0.1:80", ensurePolicy := none }

/-- A record before address generation. -/
def wRecGen : BackendRecord :=
  { namespc := "ns", name := "rec-1", uid := "uid-1",
    deletionTimestamp := none, finalizers := [FinalizerDeregisterBackend],
    spec := wSpecStatic,
    status := { backendAddr := "", injectedInfo := [], conditions := [] } }

/-- A record with a generated address (ensure path). -/
def wRecEnsure : BackendRecord :=
  { wRecGen with
    status := { backendAddr := "10.0.0.1:80", injectedInfo := [("k", "v")],
                conditions := [] } }

/-- The ensure-path record with an Always ensure policy. -/
def wRecEnsureAlways : BackendRecord :=
  { wRecEnsure with
    spec := { wSpecStatic with
      ensurePolicy := some { policy := .always, minPeriod := some 30 } } }

/-- The ensure-path record marked for deletion. -/
def wRecDereg : BackendRecord := { wRecEnsure with deletionTimestamp := some 1 }

/-- Base environment: record not found, every external effect benign. -/
def wEnv : ReconcileEnv :=
  { keyOk := true, getRecord := .notFound, driver := .ok wDriver,
    podLookup := .ok (), nodeLookup := .ok (), svcLookup := .ok (),
    genRsp := .error "no generate call", ensureRsp := .error "no ensure call",
    deregRsp := .error "no deregister call",
    updateStatusOk := true, updateOk := true, now := 7 }

/-- A successful backend-operation response with no injected info. -/
def wRspSucc : BackendOperationResponse :=
  { status := "Succ", msg := "ok", injectedInfo := [],
    minRetryDelayInSeconds := 0 }

/-- Environment for a successful ensure tick. -/
def wEnvEnsureSucc : ReconcileEnv :=
  { wEnv with getRecord := .found wRecEnsure, ensureRsp := .ok wRspSucc }

/-- Environment for a successful ensure tick under an Always policy. -/
def wEnvEnsureAlways : ReconcileEnv :=
  { wEnv with getRecord := .found wRecEnsureAlways, ensureRsp := .ok wRspSucc }

/-- Environment for a successful deregister tick. -/
def wEnvDereg : ReconcileEnv :=
  { wEnv with getRecord := .found wRecDereg, deregRsp := .ok wRspSucc }

/-- Environment for an ensure tick whose webhook call fails in transport. -/
def wEnvEnsureErr : ReconcileEnv :=
  { wEnv with
    getRecord := .found wRecEnsure,
    ensureRsp := .error "webhook err: boom" }

/-- Environment for a generate tick on the static record. -/
def wEnvGen : ReconcileEnv := { wEnv with getRecord := .found wRecGen }

/-- A parsed driver URL carrying a base path component. -/
def wURL : URL := { scheme := "https", host := "driver.example", path := "/base" }

/-! ## Theorems -/

/-- C1: every reconcile of a key returns exactly one verdict through this
dispatch: record not found gives Success; a set DeletionTimestamp with the
deregister-backend finalizer absent gives Success; with the finalizer
present the deregister path runs; with no DeletionTimestamp an empty
Status.BackendAddr sends the record down the generate path and a non-empty
one down the ensure path. -/
theorem c1_sync_dispatch (env : ReconcileEnv) (reg : Registry)
    (hkey : env.keyOk = true) :
    (env.getRecord = .notFound →
      syncBackendRecord env reg =
        { result := SuccResult, stored := none, registry := reg,
          events := [], trace := [] }) ∧
    (∀ b, env.getRecord = .found b →
      (b.deletionTimestamp.isSome = true →
        HasFinalizer b.finalizers FinalizerDeregisterBackend = false →
        (syncBackendRecord env reg).result = SuccResult) ∧
      (b.deletionTimestamp.isSome = true →
        HasFinalizer b.finalizers FinalizerDeregisterBackend = true →
        syncBackendRecord env reg = liftPath (deregisterBackend env reg b)) ∧
      (b.deletionTimestamp = none → b.status.backendAddr = "" →
        syncBackendRecord env reg = liftPath (generateBackendAddr env reg b)) ∧
      (b.deletionTimestamp = none → b.status.backendAddr ≠ "" →
        syncBackendRecord env reg = liftPath (ensureBackend env reg b))) := by
  refine ⟨?_, ?_⟩
  · intro h
    simp [syncBackendRecord, hkey, h]
  · intro b hb
    refine ⟨?_, ?_, ?_, ?_⟩
    · intro hdt hf
      simp [syncBackendRecord, hkey, hb, hdt, hf]
    · intro hdt hf
      simp [syncBackendRecord, hkey, hb, hdt, hf]
    · intro hdt ha
      simp [syncBackendRecord, hkey, hb, hdt, ha]
    · intro hdt ha
      simp [syncBackendRecord, hkey, hb, hdt, ha]

/-- Witness for C1 at a concrete input: a not-found key yields Success with
no events, no calls and an unchanged registry. -/
theorem c1_sync_dispatch_witness :
    syncBackendRecord wEnv [] =
      { result := SuccResult, stored := none, registry := [],
        events := [], trace := [] } :=
  (c1_sync_dispatch wEnv [] rfl).1 rfl

/-- C4: a record entering the ensure path while the in-flight-delete
registry holds an entry for its "LBInfo|BackendAddr" key yields exactly a
DelayedEnsureBackend event naming the stored record name and the verdict
Async(CalculateRetryInterval(0)), with no driver call, no status change and
no registry change. -/
theorem c4_ensure_guard (env : ReconcileEnv) (reg : Registry)
    (b : BackendRecord) (nm : String)
    (hkey : env.keyOk = true) (hb : env.getRecord = .found b)
    (hdt : b.deletionTimestamp = none) (ha : b.status.backendAddr ≠ "")
    (hreg : regLoad reg (b.spec.lbInfo ++ "|" ++ b.status.backendAddr) = some nm) :
    syncBackendRecord env reg =
      { result := AsyncResult (CalculateRetryInterval 0), stored := some b,
        registry := reg, events := [("DelayedEnsureBackend", nm)],
        trace := [] } := by
  simp [syncBackendRecord, hkey, hb, hdt, ha, ensureBackend,
    sameAddrDeleting, deletingKey, hreg, liftPath]

/-- Witness for C4 at a concrete input: with "lb-1|10.0.0.1:80" mapped to
another record, the ensure tick of the sample record is delayed. -/
theorem c4_ensure_guard_witness :
    syncBackendRecord wEnvEnsureSucc [("lb-1|10.0.0.1:80", "rec-0")] =
      { result := AsyncResult (CalculateRetryInterval 0),
        stored := some wRecEnsure,
        registry := [("lb-1|10.0.0.1:80", "rec-0")],
        events := [("DelayedEnsureBackend", "rec-0")], trace := [] } :=
  c4_ensure_guard wEnvEnsureSucc [("lb-1|10.0.0.1:80", "rec-0")] wRecEnsure
    "rec-0" rfl rfl rfl (by decide) (by decide)

/-- C5: finalizer removal deletes the record's key from the in-flight-delete
registry, strips the deregister-backend sentinel from a deep copy, and
persists via the full Update; when the Update fails the verdict is Error and
the registry entry is still gone; the outcome never consults the
status-subresource update effect. -/
theorem c5_removeFinalizer (env : ReconcileEnv) (reg : Registry)
    (b : BackendRecord) :
    ((removeFinalizer env reg b).registry = regDelete reg (deletingKey b)) ∧
    (env.updateOk = true →
      removeFinalizer env reg b =
        { result := SuccResult,
          stored := { b with finalizers := RemoveFinalizer b.finalizers FinalizerDeregisterBackend },
          registry := regDelete reg (deletingKey b), events := [],
          trace := [] }) ∧
    (env.updateOk = false →
      ∃ e, removeFinalizer env reg b =
        { result := ErrorResult e, stored := b,
          registry := regDelete reg (deletingKey b), events := [],
          trace := [] }) ∧
    (∀ x, removeFinalizer { env with updateStatusOk := x } reg b =
      removeFinalizer env reg b) := by
  refine ⟨?_, ?_, ?_, ?_⟩
  · simp only [removeFinalizer, removeDeletingRecord]
    split <;> rfl
  · intro h
    simp [removeFinalizer, removeDeletingRecord, h]
  · intro h
    exact ⟨"update failed", by simp [removeFinalizer, removeDeletingRecord, h]⟩
  · intro x
    rfl

/-- Witness for C5 at a concrete input: removing the finalizer of the
deleting sample record empties the registry entry and strips the
sentinel. -/
theorem c5_removeFinalizer_witness :
    removeFinalizer wEnvDereg [("lb-1|10.0.0.1:80", "rec-1")] wRecDereg =
      { result := SuccResult,
        stored := { wRecDereg with finalizers := RemoveFinalizer wRecDereg.finalizers FinalizerDeregisterBackend },
        registry := regDelete [("lb-1|10.0.0.1:80", "rec-1")] (deletingKey wRecDereg),
        events := [], trace := [] } :=
  (c5_removeFinalizer wEnvDereg [("lb-1|10.0.0.1:80", "rec-1")] wRecDereg).2.1
    rfl

/-- C6 counterexample: for a driver URL with a base path component, the code
overwrites the path with only the webhook name, so the resolved URL differs
from the spec's "driver.Spec.Url with path suffix equal to the webhook name,
preserving any base path". -/
theorem c6_counterexample :
    resolveWebhookURL wURL "ensureBackend" ≠
      resolveWebhookURLSpec wURL "ensureBackend" ∧
    urlString (resolveWebhookURL wURL "ensureBackend") =
      "https://driver.example/ensureBackend" ∧
    urlString (resolveWebhookURLSpec wURL "ensureBackend") =
      "https://driver.example/base/ensureBackend" := by
  refine ⟨by decide, ?_, ?_⟩ <;> rfl

/-- C6 amended: for every driver URL and hook name (nonempty, not beginning
with a slash), the webhook client posts to the driver URL with its path
replaced by exactly the webhook name — scheme://host/hookName — discarding
any base path component of driver.Spec.Url. -/
theorem c6_url_resolution (u : URL) (hook : String)
    (outcome : TransportOutcome) (h1 : hook ≠ "")
    (h2 : hook.data.head? ≠ some '/') :
    (callWebhook (some u) hook outcome).1 = some { u with path := hook } ∧
    urlString { u with path := hook } =
      u.scheme ++ "://" ++ u.host ++ ("/" ++ hook) := by
  constructor
  · cases outcome <;> rfl
  · simp [urlString, h1, h2]

/-- Witness for C6 amended at a concrete input. -/
theorem c6_url_resolution_witness :
    (callWebhook (some wURL) "ensureBackend"
      (TransportOutcome.response 200 true)).1 =
        some { wURL with path := "ensureBackend" } ∧
    urlString { wURL with path := "ensureBackend" } =
      wURL.scheme ++ "://" ++ wURL.host ++ ("/" ++ "ensureBackend") :=
  c6_url_resolution wURL "ensureBackend" (TransportOutcome.response 200 true)
    (by decide) (by decide)

/-- C7 counterexample: an HTTP 201 response with a well-formed body is
inside the 2xx class, yet the webhook client returns an error — the code
compares against http.StatusOK (200), not against the 2xx class. -/
theorem c7_counterexample :
    exceptIsError
      (callWebhook (some wURL) "ensureBackend"
        (TransportOutcome.response 201 true)).2 = true ∧
    non2xx 201 = false := by
  constructor
  · rfl
  · rfl

/-- C7 amended: given a driver URL that parses, the webhook client errors
exactly on a transport error, a status code other than 200, or a body that
fails to decode, and otherwise returns the decoded response without error;
the reconciler surfaces a webhook error as the Error verdict. -/
theorem c7_webhook_errors :
    (∀ (u : URL) (hook : String) (outcome : TransportOutcome),
      exceptIsError (callWebhook (some u) hook outcome).2 = true ↔
        ((∃ m, outcome = .transportError m) ∨
         (∃ c d, outcome = .response c d ∧ (c ≠ 200 ∨ d = false)))) ∧
    (∀ (env : ReconcileEnv) (reg : Registry) (b : BackendRecord)
        (e : String) (d : LoadBalancerDriver),
      env.keyOk = true → env.getRecord = .found b →
      b.deletionTimestamp = none → b.status.backendAddr ≠ "" →
      sameAddrDeleting reg b = none → env.driver = .ok d →
      env.ensureRsp = .error e →
      (syncBackendRecord env reg).result = ErrorResult e) := by
  constructor
  · intro u hook outcome
    cases outcome with
    | transportError m =>
      simp [callWebhook, exceptIsError]
    | response c d =>
      by_cases hc : c = 200 <;> by_cases hd : d = true <;>
        simp [callWebhook, exceptIsError, hc, hd]
  · intro env reg b e d hkey hb hdt ha hguard hdrv hrsp
    simp [syncBackendRecord, hkey, hb, hdt, ha, ensureBackend, hguard,
      hdrv, hrsp, liftPath]

/-- Helper: the condition upsert never touches the address field. -/
theorem addBackendCondition_backendAddr (st : BackendRecordStatus)
    (c : BackendRecordCondition) :
    (AddBackendCondition st c).backendAddr = st.backendAddr := by
  unfold AddBackendCondition
  split <;> rfl

/-- Helper: the condition upsert never touches the injected info. -/
theorem addBackendCondition_injectedInfo (st : BackendRecordStatus)
    (c : BackendRecordCondition) :
    (AddBackendCondition st c).injectedInfo = st.injectedInfo := by
  unfold AddBackendCondition
  split <;> rfl

/-- Helper: the ensure path only ever rewrites the status of the record,
and never its address. -/
theorem ensureBackend_stored_shape (env : ReconcileEnv) (reg : Registry)
    (b : BackendRecord) :
    ∃ st, (ensureBackend env reg b).stored = { b with status := st } ∧
      st.backendAddr = b.status.backendAddr := by
  simp only [ensureBackend]
  repeat' split
  all_goals first
    | exact ⟨b.status, rfl, rfl⟩
    | (refine ⟨_, rfl, ?_⟩
       simp only [addBackendCondition_backendAddr])

/-- Helper: finalizer removal leaves the record unchanged or strips exactly
the sentinel. -/
theorem removeFinalizer_stored_shape (env : ReconcileEnv) (reg : Registry)
    (b : BackendRecord) :
    (removeFinalizer env reg b).stored = b ∨
    (removeFinalizer env reg b).stored =
      { b with finalizers :=
          RemoveFinalizer b.finalizers FinalizerDeregisterBackend } := by
  simp only [removeFinalizer]
  split
  · exact Or.inr rfl
  · exact Or.inl rfl

/-- Helper: the deregister path leaves the record unchanged, or strips the
sentinel, and in that case the address was empty or the driver deregister
call returned Succ. -/
theorem deregisterBackend_stored_shape (env : ReconcileEnv) (reg : Registry)
    (b : BackendRecord) :
    (deregisterBackend env reg b).stored = b ∨
    ((deregisterBackend env reg b).stored =
        { b with finalizers :=
            RemoveFinalizer b.finalizers FinalizerDeregisterBackend } ∧
      (b.status.backendAddr = "" ∨
        ∃ rsp, env.deregRsp = .ok rsp ∧ rsp.status = StatusSucc)) := by
  simp only [deregisterBackend]
  split
  · next haddr =>
    rcases removeFinalizer_stored_shape env (storeDeletingBackend reg b) b with
      h1 | h1
    · exact Or.inl h1
    · exact Or.inr ⟨h1, Or.inl haddr⟩
  · split
    · exact Or.inl rfl
    · split
      · exact Or.inl rfl
      · next rsp heq =>
        split
        · next hs =>
          rcases removeFinalizer_stored_shape env
              (storeDeletingBackend reg b) b with h1 | h1
          · exact Or.inl h1
          · exact Or.inr ⟨h1, Or.inr ⟨rsp, heq, hs⟩⟩
        · split
          · exact Or.inl rfl
          · split
            · exact Or.inl rfl
            · exact Or.inl rfl

/-- Helper: when the address is non-empty and the deregister call did not
return Succ, the deregister path does not modify the record. -/
theorem deregisterBackend_no_removal (env : ReconcileEnv) (reg : Registry)
    (b : BackendRecord) (ha : b.status.backendAddr ≠ "")
    (hn : ∀ rsp, env.deregRsp = .ok rsp → rsp.status ≠ StatusSucc) :
    (deregisterBackend env reg b).stored = b := by
  simp only [deregisterBackend]
  rw [if_neg ha]
  split
  · rfl
  · split
    · rfl
    · next rsp heq =>
      split
      · next hs => exact absurd hs (hn rsp heq)
      · split
        · rfl
        · split
          · rfl
          · rfl

/-- Helper: the generate path leaves the record unchanged, or sets exactly
the address to the BackendAddr of the Succ response of the backend-source
dispatch. -/
theorem generateBackendAddr_stored_shape (env : ReconcileEnv)
    (reg : Registry) (b : BackendRecord) :
    (generateBackendAddr env reg b).stored = b ∨
    (∃ tr rsp, genDispatch env b = (tr, .ok rsp) ∧ rsp.status = StatusSucc ∧
      (generateBackendAddr env reg b).stored =
        { b with status :=
            { b.status with backendAddr := rsp.backendAddr } }) := by
  simp only [generateBackendAddr]
  split
  · exact Or.inl rfl
  · split
    · exact Or.inl rfl
    · next rsp hrsp =>
      split
      · next hs =>
        split
        · exact Or.inr ⟨(genDispatch env b).1, rsp, by rw [← hrsp], hs, rfl⟩
        · exact Or.inl rfl
      · split
        · exact Or.inl rfl
        · split
          · exact Or.inl rfl
          · exact Or.inl rfl

/-- Witness for C7 amended at concrete inputs: a transport error is an
error, and the ensure-path reconcile surfaces it as the Error verdict. -/
theorem c7_webhook_errors_witness :
    exceptIsError
      (callWebhook (some wURL) "ensureBackend"
        (TransportOutcome.transportError "boom")).2 = true ∧
    (syncBackendRecord wEnvEnsureErr []).result =
      ErrorResult "webhook err: boom" :=
  ⟨(c7_webhook_errors.1 wURL "ensureBackend"
      (TransportOutcome.transportError "boom")).mpr (Or.inl ⟨"boom", rfl⟩),
   c7_webhook_errors.2 wEnvEnsureErr [] wRecEnsure "webhook err: boom"
     wDriver rfl rfl rfl (by decide) rfl rfl rfl⟩

/-- C2: Status.BackendAddr is monotone — any reconcile of a found record
with a non-empty address leaves the address unchanged in the stored record,
and a changed address can only arise from the generate path (which runs only
on an empty address, with no deletion timestamp) where the new value equals
the BackendAddr of the driver response. -/
theorem c2_backendAddr_monotone (env : ReconcileEnv) (reg : Registry)
    (b : BackendRecord) (hkey : env.keyOk = true)
    (hb : env.getRecord = .found b) :
    ∀ b', (syncBackendRecord env reg).stored = some b' →
      (b.status.backendAddr ≠ "" →
        b'.status.backendAddr = b.status.backendAddr) ∧
      (b'.status.backendAddr ≠ b.status.backendAddr →
        b.status.backendAddr = "" ∧ b.deletionTimestamp = none ∧
        ∃ tr rsp, genDispatch env b = (tr, .ok rsp) ∧
          rsp.status = StatusSucc ∧
          b'.status.backendAddr = rsp.backendAddr) := by
  intro b' hst
  by_cases hdt : b.deletionTimestamp.isSome = true
  · by_cases hf : HasFinalizer b.finalizers FinalizerDeregisterBackend = true
    · have hsync : syncBackendRecord env reg =
          liftPath (deregisterBackend env reg b) := by
        simp [syncBackendRecord, hkey, hb, hdt, hf]
      rw [hsync] at hst
      have hb' : b' = (deregisterBackend env reg b).stored := by
        simpa [liftPath] using hst.symm
      rcases deregisterBackend_stored_shape env reg b with h1 | ⟨h1, _⟩ <;>
        (rw [h1] at hb'; subst hb';
         exact ⟨fun _ => rfl, fun hco => absurd rfl hco⟩)
    · have hsync : syncBackendRecord env reg =
          { result := SuccResult, stored := some b, registry := reg,
            events := [], trace := [] } := by
        simp [syncBackendRecord, hkey, hb, hdt, hf]
      rw [hsync] at hst
      have hb' : b' = b := by simpa using hst.symm
      subst hb'
      exact ⟨fun _ => rfl, fun hco => absurd rfl hco⟩
  · have hdtn : b.deletionTimestamp = none := by
      cases hval : b.deletionTimestamp with
      | none => rfl
      | some t => rw [hval] at hdt; simp at hdt
    by_cases ha : b.status.backendAddr = ""
    · have hsync : syncBackendRecord env reg =
          liftPath (generateBackendAddr env reg b) := by
        simp [syncBackendRecord, hkey, hb, hdtn, ha]
      rw [hsync] at hst
      have hb' : b' = (generateBackendAddr env reg b).stored := by
        simpa [liftPath] using hst.symm
      rcases generateBackendAddr_stored_shape env reg b with
        h1 | ⟨tr, rsp, hgd, hs, h1⟩
      · rw [h1] at hb'; subst hb'
        exact ⟨fun hco => absurd ha hco, fun hco => absurd rfl hco⟩
      · rw [h1] at hb'; subst hb'
        exact ⟨fun hco => absurd ha hco,
          fun _ => ⟨ha, hdtn, tr, rsp, hgd, hs, rfl⟩⟩
    · have hsync : syncBackendRecord env reg =
          liftPath (ensureBackend env reg b) := by
        simp [syncBackendRecord, hkey, hb, hdtn, ha]
      rw [hsync] at hst
      have hb' : b' = (ensureBackend env reg b).stored := by
        simpa [liftPath] using hst.symm
      rcases ensureBackend_stored_shape env reg b with ⟨st, h1, h2⟩
      rw [h1] at hb'; subst hb'
      exact ⟨fun _ => h2, fun hco => absurd h2 hco⟩

/-- Witness for C2 at a concrete input: a successful ensure tick leaves the
non-empty address unchanged. -/
theorem c2_backendAddr_monotone_witness :
    wRecEnsure.status.backendAddr ≠ "" ∧
    ((syncBackendRecord wEnvEnsureSucc []).stored.map
      (fun r => r.status.backendAddr)) =
        some wRecEnsure.status.backendAddr := by
  refine ⟨by decide, ?_⟩
  have h := ((c2_backendAddr_monotone wEnvEnsureSucc [] wRecEnsure rfl rfl)
      ((ensureBackend wEnvEnsureSucc [] wRecEnsure).stored) rfl).1 (by decide)
  have hs : (syncBackendRecord wEnvEnsureSucc []).stored =
      some ((ensureBackend wEnvEnsureSucc [] wRecEnsure).stored) := rfl
  rw [hs]
  simp only [Option.map]
  rw [h]

/-- C3: a reconcile removes the deregister-backend finalizer only when the
address was empty at entry or the deregister webhook call of the same tick
returned Succ; under any other deregister outcome the finalizer set is left
untouched. -/
theorem c3_finalizer_removal (env : ReconcileEnv) (reg : Registry)
    (b : BackendRecord) (hkey : env.keyOk = true)
    (hb : env.getRecord = .found b)
    (hfin : HasFinalizer b.finalizers FinalizerDeregisterBackend = true) :
    ∀ b', (syncBackendRecord env reg).stored = some b' →
      (HasFinalizer b'.finalizers FinalizerDeregisterBackend = false →
        b.status.backendAddr = "" ∨
        ∃ rsp, env.deregRsp = .ok rsp ∧ rsp.status = StatusSucc) ∧
      (b.status.backendAddr ≠ "" →
        (∀ rsp, env.deregRsp = .ok rsp → rsp.status ≠ StatusSucc) →
        b'.finalizers = b.finalizers) := by
  intro b' hst
  by_cases hdt : b.deletionTimestamp.isSome = true
  · have hsync : syncBackendRecord env reg =
        liftPath (deregisterBackend env reg b) := by
      simp [syncBackendRecord, hkey, hb, hdt, hfin]
    rw [hsync] at hst
    have hb' : b' = (deregisterBackend env reg b).stored := by
      simpa [liftPath] using hst.symm
    constructor
    · intro hrem
      rcases deregisterBackend_stored_shape env reg b with h1 | ⟨h1, h2⟩
      · rw [h1] at hb'; subst hb'
        rw [hfin] at hrem
        exact absurd hrem (by decide)
      · exact h2
    · intro ha hn
      have h1 := deregisterBackend_no_removal env reg b ha hn
      rw [h1] at hb'; subst hb'
      rfl
  · have hdtn : b.deletionTimestamp = none := by
      cases hval : b.deletionTimestamp with
      | none => rfl
      | some t => rw [hval] at hdt; simp at hdt
    by_cases ha : b.status.backendAddr = ""
    · have hsync : syncBackendRecord env reg =
          liftPath (generateBackendAddr env reg b) := by
        simp [syncBackendRecord, hkey, hb, hdtn, ha]
      rw [hsync] at hst
      have hb' : b' = (generateBackendAddr env reg b).stored := by
        simpa [liftPath] using hst.symm
      rcases generateBackendAddr_stored_shape env reg b with
        h1 | ⟨tr, rsp, hgd, hs, h1⟩ <;>
        (rw [h1] at hb'; subst hb';
         exact ⟨fun _ => Or.inl ha, fun _ _ => rfl⟩)
    · have hsync : syncBackendRecord env reg =
          liftPath (ensureBackend env reg b) := by
        simp [syncBackendRecord, hkey, hb, hdtn, ha]
      rw [hsync] at hst
      have hb' : b' = (ensureBackend env reg b).stored := by
        simpa [liftPath] using hst.symm
      rcases ensureBackend_stored_shape env reg b with ⟨st, h1, _⟩
      rw [h1] at hb'; subst hb'
      refine ⟨fun hrem => ?_, fun _ _ => rfl⟩
      rw [show ({ b with status := st } : BackendRecord).finalizers =
        b.finalizers from rfl, hfin] at hrem
      exact absurd hrem (by decide)

/-- Witness for C3 at a concrete input: the successful deregister tick that
strips the finalizer satisfies the removal prerequisite. -/
theorem c3_finalizer_removal_witness :
    wRecDereg.status.backendAddr = "" ∨
    ∃ rsp, wEnvDereg.deregRsp = .ok rsp ∧ rsp.status = StatusSucc :=
  ((c3_finalizer_removal wEnvDereg [] wRecDereg rfl rfl (by decide))
    ((deregisterBackend wEnvDereg [] wRecDereg).stored) rfl).1 (by decide)

/-- Helper: finalizer removal never yields a Periodic verdict. -/
theorem removeFinalizer_no_periodic (env : ReconcileEnv) (reg : Registry)
    (b : BackendRecord) (p : Nat) :
    (removeFinalizer env reg b).result ≠ PeriodicResult p := by
  simp only [removeFinalizer]
  split <;> simp [SuccResult, ErrorResult, PeriodicResult]

/-- Helper: the deregister path never yields a Periodic verdict. -/
theorem deregisterBackend_no_periodic (env : ReconcileEnv) (reg : Registry)
    (b : BackendRecord) (p : Nat) :
    (deregisterBackend env reg b).result ≠ PeriodicResult p := by
  simp only [deregisterBackend]
  split
  · exact removeFinalizer_no_periodic env (storeDeletingBackend reg b) b p
  · split
    · simp [ErrorResult, PeriodicResult]
    · split
      · simp [ErrorResult, PeriodicResult]
      · split
        · exact removeFinalizer_no_periodic env (storeDeletingBackend reg b) b p
        · split
          · simp [FailResult, PeriodicResult]
          · split
            · simp [AsyncResult, PeriodicResult]
            · simp [ErrorResult, PeriodicResult]

/-- Helper: the generate path never yields a Periodic verdict. -/
theorem generateBackendAddr_no_periodic (env : ReconcileEnv) (reg : Registry)
    (b : BackendRecord) (p : Nat) :
    (generateBackendAddr env reg b).result ≠ PeriodicResult p := by
  simp only [generateBackendAddr]
  repeat' split
  all_goals simp [SuccResult, ErrorResult, FailResult, AsyncResult,
    PeriodicResult]

/-- Helper: a Periodic verdict out of the ensure path pins down a Succ
ensure response, an Always policy, and the period value. -/
theorem ensureBackend_periodic_char (env : ReconcileEnv) (reg : Registry)
    (b : BackendRecord) (p : Nat) :
    (ensureBackend env reg b).result = PeriodicResult p →
    ∃ rsp ep, env.ensureRsp = .ok rsp ∧ rsp.status = StatusSucc ∧
      b.spec.ensurePolicy = some ep ∧ ep.policy = .always ∧
      p = max (ep.minPeriod.getD 0) DefaultEnsurePeriod := by
  simp only [ensureBackend]
  split
  · intro h; exact absurd h (by simp [AsyncResult, PeriodicResult])
  · split
    · intro h; exact absurd h (by simp [ErrorResult, PeriodicResult])
    · split
      · intro h; exact absurd h (by simp [ErrorResult, PeriodicResult])
      · next rsp heq =>
        split
        · next hs =>
          split
          · split
            · next ep hep =>
              split
              · next hpol =>
                intro h
                refine ⟨rsp, ep, heq, hs, hep, hpol, ?_⟩
                simp only [PeriodicResult, SyncResult.periodic.injEq] at h
                rw [← h]
                rfl
              · intro h; exact absurd h (by simp [SuccResult, PeriodicResult])
            · intro h; exact absurd h (by simp [SuccResult, PeriodicResult])
          · intro h; exact absurd h (by simp [ErrorResult, PeriodicResult])
        · split
          · split
            · intro h; exact absurd h (by simp [FailResult, PeriodicResult])
            · intro h; exact absurd h (by simp [ErrorResult, PeriodicResult])
          · split
            · intro h; exact absurd h (by simp [AsyncResult, PeriodicResult])
            · intro h; exact absurd h (by simp [ErrorResult, PeriodicResult])

/-- C8: a Periodic verdict arises only from an ensure-path reconcile whose
driver call returned Succ on a record with EnsurePolicy.Policy == Always,
with period max(EnsurePolicy.MinPeriod, DEFAULT_ENSURE_PERIOD); a successful
ensure without that policy returns Success. -/
theorem c8_periodic_only_always (env : ReconcileEnv) (reg : Registry)
    (hkey : env.keyOk = true) :
    (∀ p, (syncBackendRecord env reg).result = PeriodicResult p →
      ∃ b rsp ep, env.getRecord = .found b ∧ b.deletionTimestamp = none ∧
        b.status.backendAddr ≠ "" ∧ env.ensureRsp = .ok rsp ∧
        rsp.status = StatusSucc ∧ b.spec.ensurePolicy = some ep ∧
        ep.policy = .always ∧
        p = max (ep.minPeriod.getD 0) DefaultEnsurePeriod) ∧
    (∀ b rsp d, env.getRecord = .found b → b.deletionTimestamp = none →
      b.status.backendAddr ≠ "" → sameAddrDeleting reg b = none →
      env.driver = .ok d → env.ensureRsp = .ok rsp →
      rsp.status = StatusSucc → env.updateStatusOk = true →
      (∀ ep, b.spec.ensurePolicy = some ep → ep.policy ≠ .always) →
      (syncBackendRecord env reg).result = SuccResult) := by
  constructor
  · intro p hp
    cases hget : env.getRecord with
    | notFound =>
      rw [show syncBackendRecord env reg =
        { result := SuccResult, stored := none, registry := reg,
          events := [], trace := [] } from by
            simp [syncBackendRecord, hkey, hget]] at hp
      exact absurd hp (by simp [SuccResult, PeriodicResult])
    | getError e =>
      rw [show syncBackendRecord env reg =
        { result := ErrorResult e, stored := none, registry := reg,
          events := [], trace := [] } from by
            simp [syncBackendRecord, hkey, hget]] at hp
      exact absurd hp (by simp [ErrorResult, PeriodicResult])
    | found b =>
      by_cases hdt : b.deletionTimestamp.isSome = true
      · by_cases hf : HasFinalizer b.finalizers FinalizerDeregisterBackend = true
        · rw [show syncBackendRecord env reg =
            liftPath (deregisterBackend env reg b) from by
              simp [syncBackendRecord, hkey, hget, hdt, hf]] at hp
          exact absurd hp (deregisterBackend_no_periodic env reg b p)
        · rw [show syncBackendRecord env reg =
            { result := SuccResult, stored := some b, registry := reg,
              events := [], trace := [] } from by
                simp [syncBackendRecord, hkey, hget, hdt, hf]] at hp
          exact absurd hp (by simp [SuccResult, PeriodicResult])
      · have hdtn : b.deletionTimestamp = none := by
          cases hval : b.deletionTimestamp with
          | none => rfl
          | some t => rw [hval] at hdt; simp at hdt
        by_cases ha : b.status.backendAddr = ""
        · rw [show syncBackendRecord env reg =
            liftPath (generateBackendAddr env reg b) from by
              simp [syncBackendRecord, hkey, hget, hdtn, ha]] at hp
          exact absurd hp (generateBackendAddr_no_periodic env reg b p)
        · rw [show syncBackendRecord env reg =
            liftPath (ensureBackend env reg b) from by
              simp [syncBackendRecord, hkey, hget, hdtn, ha]] at hp
          rcases ensureBackend_periodic_char env reg b p hp with
            ⟨rsp, ep, h1, h2, h3, h4, h5⟩
          exact ⟨b, rsp, ep, rfl, hdtn, ha, h1, h2, h3, h4, h5⟩
  · intro b rsp d hget hdtn ha hguard hdrv hrsp hs hup hpol
    cases hep : b.spec.ensurePolicy with
    | none =>
      simp [syncBackendRecord, hkey, hget, hdtn, ha, ensureBackend, hguard,
        hdrv, hrsp, hs, hup, hep, liftPath]
    | some ep =>
      have hne : ¬ ep.policy = .always := hpol ep hep
      simp [syncBackendRecord, hkey, hget, hdtn, ha, ensureBackend, hguard,
        hdrv, hrsp, hs, hup, hep, hne, liftPath]

/-- Witness for C8 at a concrete input: a successful ensure of the sample
record without an Always policy returns Success. -/
theorem c8_periodic_only_always_witness :
    (syncBackendRecord wEnvEnsureSucc []).result = SuccResult :=
  (c8_periodic_only_always wEnvEnsureSucc [] rfl).2 wRecEnsure wRspSucc
    wDriver rfl rfl (by decide) rfl rfl rfl rfl rfl
    (fun ep hep => by simp [wRecEnsure, wRecGen, wSpecStatic] at hep)

/-- Helper: replacing the matching condition in a list keeps a condition of
the target type findable, carrying the new status and message. -/
theorem find_cond_map (l : List BackendRecordCondition)
    (c : BackendRecordCondition)
    (h : l.any (fun x => x.condType = c.condType) = true) :
    ∃ c', (l.map (fun x =>
        if x.condType = c.condType then
          if x.status = c.status then
            { c with lastTransitionTime := x.lastTransitionTime }
          else c
        else x)).find? (fun x => x.condType = c.condType) = some c' ∧
      c'.status = c.status ∧ c'.message = c.message := by
  induction l with
  | nil => simp at h
  | cons x xs ih =>
    by_cases hx : x.condType = c.condType
    · refine ⟨if x.status = c.status then
          { c with lastTransitionTime := x.lastTransitionTime } else c,
        ?_, ?_, ?_⟩
      · have hct : (if x.status = c.status then
            { c with lastTransitionTime := x.lastTransitionTime }
          else c).condType = c.condType := by
          split <;> rfl
        simp only [List.map_cons]
        rw [List.find?_cons_of_pos]
        · simp [hx]
        · simp [hx, hct]
      · split <;> rfl
      · split <;> rfl
    · simp only [List.any_cons, Bool.or_eq_true, decide_eq_true_eq] at h
      rcases h with h1 | h2
      · exact absurd h1 hx
      · rcases ih h2 with ⟨c', hfind, hs, hm⟩
        refine ⟨c', ?_, hs, hm⟩
        simp only [List.map_cons]
        rw [List.find?_cons_of_neg]
        · simpa [hx] using hfind
        · simp [hx]

/-- Helper: appending a fresh condition to a list with no condition of that
type makes it the one found. -/
theorem find_cond_append (l : List BackendRecordCondition)
    (c : BackendRecordCondition)
    (h : l.any (fun x => x.condType = c.condType) = false) :
    (l ++ [c]).find? (fun x => x.condType = c.condType) = some c := by
  induction l with
  | nil => simp [List.find?]
  | cons x xs ih =>
    simp only [List.any_cons, Bool.or_eq_false_iff, decide_eq_false_iff_not]
      at h
    rcases h with ⟨h1, h2⟩
    simp only [List.cons_append]
    rw [List.find?_cons_of_neg]
    · exact ih h2
    · simp [h1]

/-- Helper: after the condition upsert, a condition of the upserted type is
found carrying the new status and message. -/
theorem addBackendCondition_find (st : BackendRecordStatus)
    (c : BackendRecordCondition) :
    ∃ c', (AddBackendCondition st c).conditions.find?
        (fun x => x.condType = c.condType) = some c' ∧
      c'.status = c.status ∧ c'.message = c.message := by
  unfold AddBackendCondition
  split
  · next hany => exact find_cond_map st.conditions c hany
  · next hany =>
    refine ⟨c, ?_, rfl, rfl⟩
    exact find_cond_append st.conditions c (by simpa using hany)

/-- C9: on an ensure Succ response the persisted status takes the
response's InjectedInfo only when that field is non-empty — an empty
response field leaves the prior value in place — while the
BackendRegistered=True condition is upserted and the address is
untouched. -/
theorem c9_injectedInfo_retained (env : ReconcileEnv) (reg : Registry)
    (b : BackendRecord) (rsp : BackendOperationResponse)
    (d : LoadBalancerDriver) (hkey : env.keyOk = true)
    (hb : env.getRecord = .found b) (hdtn : b.deletionTimestamp = none)
    (ha : b.status.backendAddr ≠ "")
    (hguard : sameAddrDeleting reg b = none) (hdrv : env.driver = .ok d)
    (hrsp : env.ensureRsp = .ok rsp) (hs : rsp.status = StatusSucc)
    (hup : env.updateStatusOk = true) :
    ∃ b', (syncBackendRecord env reg).stored = some b' ∧
      (rsp.injectedInfo = [] →
        b'.status.injectedInfo = b.status.injectedInfo) ∧
      (rsp.injectedInfo ≠ [] →
        b'.status.injectedInfo = rsp.injectedInfo) ∧
      (∃ c, b'.status.conditions.find?
          (fun x => x.condType = BackendRegistered) = some c ∧
        c.status = ConditionTrue ∧ c.message = rsp.msg) ∧
      b'.status.backendAddr = b.status.backendAddr := by
  have hens : (ensureBackend env reg b).stored =
      { b with
        status := AddBackendCondition
            (if rsp.injectedInfo.length > 0 then
              { b.status with injectedInfo := rsp.injectedInfo }
             else b.status)
            { condType := BackendRegistered, status := ConditionTrue,
              lastTransitionTime := env.now, reason := "",
              message := rsp.msg } } := by
    cases hep : b.spec.ensurePolicy with
    | none => simp [ensureBackend, hguard, hdrv, hrsp, hs, hup, hep]
    | some ep =>
      by_cases hpol : ep.policy = .always <;>
        simp [ensureBackend, hguard, hdrv, hrsp, hs, hup, hep, hpol]
  refine ⟨(ensureBackend env reg b).stored, ?_, ?_, ?_, ?_, ?_⟩
  · rw [show syncBackendRecord env reg =
      liftPath (ensureBackend env reg b) from by
        simp [syncBackendRecord, hkey, hb, hdtn, ha]]
    rfl
  · intro hemp
    rw [hens]
    simp [addBackendCondition_injectedInfo, hemp]
  · intro hne
    rw [hens]
    have hlen : 0 < rsp.injectedInfo.length := List.length_pos.mpr hne
    simp [addBackendCondition_injectedInfo, hlen]
  · rw [hens]
    rcases addBackendCondition_find
        (if rsp.injectedInfo.length > 0 then
          { b.status with injectedInfo := rsp.injectedInfo }
        else b.status)
        { condType := BackendRegistered, status := ConditionTrue,
          lastTransitionTime := env.now, reason := "",
          message := rsp.msg } with ⟨c, hfind, hcs, hcm⟩
    exact ⟨c, hfind, hcs, hcm⟩
  · rw [hens]
    simp only [addBackendCondition_backendAddr]
    split <;> rfl

/-- Witness for C9 at a concrete input: the sample ensure Succ response has
empty InjectedInfo and the prior value is retained. -/
theorem c9_injectedInfo_retained_witness :
    ∃ b', (syncBackendRecord wEnvEnsureSucc []).stored = some b' ∧
      (wRspSucc.injectedInfo = [] →
        b'.status.injectedInfo = wRecEnsure.status.injectedInfo) ∧
      (wRspSucc.injectedInfo ≠ [] →
        b'.status.injectedInfo = wRspSucc.injectedInfo) ∧
      (∃ c, b'.status.conditions.find?
          (fun x => x.condType = BackendRegistered) = some c ∧
        c.status = ConditionTrue ∧ c.message = wRspSucc.msg) ∧
      b'.status.backendAddr = wRecEnsure.status.backendAddr :=
  c9_injectedInfo_retained wEnvEnsureSucc [] wRecEnsure wRspSucc wDriver
    rfl rfl rfl (by decide) rfl rfl rfl rfl rfl

/-- Helper: finalizer removal performs no generator or webhook call. -/
theorem removeFinalizer_trace (env : ReconcileEnv) (reg : Registry)
    (b : BackendRecord) : (removeFinalizer env reg b).trace = [] := by
  simp only [removeFinalizer]
  split <;> rfl

/-- Helper: the ensure path enters no generator adapter. -/
theorem ensureBackend_trace_gen (env : ReconcileEnv) (reg : Registry)
    (b : BackendRecord) :
    (ensureBackend env reg b).trace.countP (fun t => t.isGenerator) = 0 := by
  simp only [ensureBackend]
  repeat' split
  all_goals rfl

/-- Helper: the deregister path enters no generator adapter. -/
theorem deregisterBackend_trace_gen (env : ReconcileEnv) (reg : Registry)
    (b : BackendRecord) :
    (deregisterBackend env reg b).trace.countP (fun t => t.isGenerator)
      = 0 := by
  simp only [deregisterBackend]
  repeat' split
  all_goals first
    | rfl
    | (simp [removeFinalizer_trace, CallTrace.isGenerator])

/-- Helper: the backend-source dispatch enters at most one generator
adapter. -/
theorem genDispatch_trace_gen (env : ReconcileEnv) (b : BackendRecord) :
    (genDispatch env b).1.countP (fun t => t.isGenerator) ≤ 1 := by
  simp only [genDispatch, generatePodAddr, generateServiceAddr,
    generateStaticAddr]
  repeat' split
  all_goals simp [List.countP_cons, CallTrace.isGenerator]

/-- Helper: the generate path enters at most one generator adapter. -/
theorem generateBackendAddr_trace_gen (env : ReconcileEnv) (reg : Registry)
    (b : BackendRecord) :
    (generateBackendAddr env reg b).trace.countP (fun t => t.isGenerator)
      ≤ 1 := by
  simp only [generateBackendAddr]
  repeat' split
  all_goals first
    | (exact genDispatch_trace_gen env b)
    | simp

/-- C10: the generate path's backend-source dispatch has fixed precedence —
pod info first, then service info, then static address, and with none set
the generate path errors with "unknown backend type"; a whole reconcile
enters at most one generator adapter even when several source kinds are
set. -/
theorem c10_generator_dispatch (env : ReconcileEnv) (reg : Registry)
    (b : BackendRecord) :
    (b.spec.podBackendInfo.isSome = true →
      genDispatch env b = generatePodAddr env) ∧
    (b.spec.podBackendInfo = none → b.spec.serviceBackendInfo.isSome = true →
      genDispatch env b = generateServiceAddr env) ∧
    (b.spec.podBackendInfo = none → b.spec.serviceBackendInfo = none →
      b.spec.staticAddr.isSome = true →
      genDispatch env b = generateStaticAddr b) ∧
    (b.spec.podBackendInfo = none → b.spec.serviceBackendInfo = none →
      b.spec.staticAddr = none → ∀ d, env.driver = .ok d →
      (generateBackendAddr env reg b).result =
        ErrorResult "unknown backend type") ∧
    ((syncBackendRecord env reg).trace.countP (fun t => t.isGenerator)
      ≤ 1) := by
  refine ⟨?_, ?_, ?_, ?_, ?_⟩
  · intro hp
    simp [genDispatch, hp]
  · intro hp hsvc
    simp [genDispatch, hp, hsvc]
  · intro hp hsvc hst
    simp [genDispatch, hp, hsvc, hst]
  · intro hp hsvc hst d hdrv
    simp [generateBackendAddr, genDispatch, hp, hsvc, hst, hdrv]
  · simp only [syncBackendRecord]
    split
    · simp
    · split
      · simp
      · simp
      · split
        · split
          · simp
          · simp [liftPath, deregisterBackend_trace_gen]
        · split
          · exact generateBackendAddr_trace_gen env reg _
          · simp [liftPath, ensureBackend_trace_gen]

/-- Witness for C10 at a concrete input: the static record dispatches to the
static generator, and its reconcile enters one generator adapter. -/
theorem c10_generator_dispatch_witness :
    genDispatch wEnvGen wRecGen = generateStaticAddr wRecGen ∧
    ((syncBackendRecord wEnvGen []).trace.countP (fun t => t.isGenerator)
      ≤ 1) :=
  ⟨(c10_generator_dispatch wEnvGen [] wRecGen).2.2.1 rfl rfl rfl,
   (c10_generator_dispatch wEnvGen [] wRecGen).2.2.2.2⟩

end LBCF
